import Mathlib

/-!
Shallow embedding of the Levesol travel-fee service (src/app.py).

External HTTP services (ViaCEP, Nominatim, OSRM) are modelled as oracle
inputs bundled in environment structures: each field records the response
of one outbound call, in the order the code performs them.  Every resolver
returns, besides its result, the updated coordinate cache and the number of
network calls it performed, so that cache and network behaviour can be
stated.  Floating-point trigonometry is abstracted by a `Trig` record of
unspecified functions on ℚ; the haversine formula is embedded literally in
terms of those functions.
-/

/-- Business-rule constants, app.py lines 20-23. -/
def CEP_ORIGEM : String := "17017-337"

def TAXA_POR_KM : ℚ := 1.6

def FRANQUIA_KM_IDA : ℚ := 30

def FRANQUIA_KM_TOTAL : ℚ := FRANQUIA_KM_IDA * 2

/-- app.py line 28-30: keep only the digit characters of a CEP string. -/
def limpar_cep (cep : String) : String :=
  String.mk (cep.data.filter Char.isDigit)

/-- app.py line 32-37: format a CEP as XXXXX-XXX when it has 8 digits. -/
def formatar_cep (cep : String) : String :=
  let cep_limpo := limpar_cep cep
  if cep_limpo.length = 8 then cep_limpo.take 5 ++ "-" ++ cep_limpo.drop 5
  else cep

/-- The coordinate record the resolvers produce (the `resultado` dicts of
app.py lines 89-95, 109-115, 149-155, 221-228).  The CEP-path dicts carry
no `cep` key, modelled by `none`. -/
structure Coord where
  lat : ℚ
  lon : ℚ
  endereco : String
  cidade : String
  uf : String
  cep : Option String
deriving DecidableEq, Repr

/-- CACHE_COORDENADAS (app.py line 26): association list, newest entry
first, so that insertion shadows like Python dict assignment does for
lookups. -/
abbrev Cache := List (String × Coord)

def cache_insere (cache : Cache) (chave : String) (valor : Coord) : Cache :=
  (chave, valor) :: cache

/-- The fields of a successful ViaCEP JSON body used by the code
(app.py lines 59-72).  `logradouro` is `none` when the key is absent;
the code tests it for Python truthiness, so the empty string is also
treated as absent via `truthy`. -/
structure DadosCep where
  logradouro : Option String
  bairro : String
  localidade : String
  uf : String
deriving DecidableEq, Repr

def truthy : Option String → Bool
  | none => false
  | some s => !s.isEmpty

/-- Outcome of the ViaCEP request (app.py lines 54-62): non-200 status,
a 200 body containing the `erro` flag, or a successful body. -/
inductive RespViaCep
  | statusErro
  | comErro
  | ok (dados : DadosCep)
deriving DecidableEq, Repr

/-- Oracle for one run of `obter_coordenadas_viacep`: the ViaCEP response
and the two successive Nominatim calls (app.py lines 85-118).  A Nominatim
field is `some (lat, lon)` when the call returned status 200 with a
non-empty candidate list, `none` otherwise. -/
structure EnvViaCep where
  viacep : RespViaCep
  nominatim1 : Option (ℚ × ℚ)
  nominatim2 : Option (ℚ × ℚ)
deriving DecidableEq, Repr

/-- The distinct exception sites of the two resolvers
(app.py lines 57, 62, 147, 200). -/
inductive ResolveErr
  | cepNaoEncontrado (cep : String)
  | cepInvalido (cep : String)
  | coordenadasIndisponiveis (cep : String)
  | enderecoNaoEncontrado (endereco : String)
deriving DecidableEq, Repr

/-- The message each raise site formats (app.py lines 57, 62, 147, 200). -/
def ResolveErr.mensagem : ResolveErr → String
  | .cepNaoEncontrado cep => "CEP não encontrado: " ++ cep
  | .cepInvalido cep => "CEP inválido: " ++ cep
  | .coordenadasIndisponiveis cep =>
      "Não foi possível obter coordenadas para o CEP " ++ cep
  | .enderecoNaoEncontrado e => "Endereço não encontrado: " ++ e

/-- Errors of the registry stage: ViaCEP reported the CEP unknown, either
by a non-200 status (message "CEP não encontrado", line 57) or by the
`erro` flag (message "CEP inválido", line 62).  Both are the
INVALID_POSTAL_CODE class of the specification. -/
def eh_cep_invalido : ResolveErr → Bool
  | .cepNaoEncontrado _ => true
  | .cepInvalido _ => true
  | _ => false

/-- Python `str.strip(', ')` used at app.py line 92: remove leading and
trailing characters drawn from the set comma-or-space. -/
def strip_virgula_espaco (s : String) : String :=
  let p : Char → Bool := fun c => c == ',' || c == ' '
  String.mk (((s.data.dropWhile p).reverse.dropWhile p).reverse)

/-- Python `str.strip()` (no arguments): remove leading and trailing
whitespace, used at app.py lines 171 and 578. -/
def strip_espacos (s : String) : String :=
  String.mk (((s.data.dropWhile Char.isWhitespace).reverse.dropWhile
    Char.isWhitespace).reverse)

/-- Static fallback table `coordenadas_cidades`, app.py lines 121-137. -/
def coordenadas_cidades : List (String × ℚ × ℚ) :=
  [("17", (-22.3155, -49.0708)),
   ("17017", (-22.3155, -49.0708)),
   ("17015", (-22.3155, -49.0708)),
   ("17120", (-22.2189, -49.0478)),
   ("17500", (-22.4249, -49.9461)),
   ("17600", (-22.2208, -50.1761)),
   ("17800", (-21.6833, -51.1333)),
   ("18600", (-22.8858, -48.4452)),
   ("01310", (-23.5489, -46.6388)),
   ("01000", (-23.5505, -46.6333)),
   ("80000", (-25.4284, -49.2733)),
   ("30000", (-19.9167, -43.9345))]

/-- `obter_coordenadas_viacep` (app.py lines 39-163).  Returns the
resolved coordinate or the raised error, the cache after the call, and
the number of network requests issued.  The chain is: cache hit; ViaCEP
registry query; first Nominatim geocoding call (full street address when
`logradouro` is truthy, city-only otherwise, lines 68-72); second
Nominatim call with city only; static table by 5-digit then 2-digit
prefix; terminal failure. -/
def obter_coordenadas_viacep (env : EnvViaCep) (cache : Cache) (cep : String) :
    Except ResolveErr Coord × Cache × Nat :=
  match cache.lookup (limpar_cep cep) with
  | some r => (.ok r, cache, 0)
  | none =>
    match env.viacep with
    | .statusErro => (.error (.cepNaoEncontrado cep), cache, 1)
    | .comErro => (.error (.cepInvalido cep), cache, 1)
    | .ok dados =>
      match env.nominatim1 with
      | some (lat, lon) =>
        let resultado : Coord :=
          { lat := lat, lon := lon,
            endereco := strip_virgula_espaco
              ((dados.logradouro.getD "") ++ ", " ++ dados.bairro ++ ", " ++
                dados.localidade ++ "-" ++ dados.uf),
            cidade := dados.localidade, uf := dados.uf, cep := none }
        (.ok resultado, cache_insere cache (limpar_cep cep) resultado, 2)
      | none =>
        match env.nominatim2 with
        | some (lat, lon) =>
          let resultado : Coord :=
            { lat := lat, lon := lon,
              endereco := dados.localidade ++ "-" ++ dados.uf,
              cidade := dados.localidade, uf := dados.uf, cep := none }
          (.ok resultado, cache_insere cache (limpar_cep cep) resultado, 3)
        | none =>
          match coordenadas_cidades.lookup ((limpar_cep cep).take 5) with
          | some coords =>
            let resultado : Coord :=
              { lat := coords.1, lon := coords.2,
                endereco := dados.localidade ++ "-" ++ dados.uf ++ " (aproximado)",
                cidade := dados.localidade, uf := dados.uf, cep := none }
            (.ok resultado, cache_insere cache (limpar_cep cep) resultado, 3)
          | none =>
            match coordenadas_cidades.lookup ((limpar_cep cep).take 2) with
            | some coords =>
              let resultado : Coord :=
                { lat := coords.1, lon := coords.2,
                  endereco := dados.localidade ++ "-" ++ dados.uf ++ " (aproximado)",
                  cidade := dados.localidade, uf := dados.uf, cep := none }
              (.ok resultado, cache_insere cache (limpar_cep cep) resultado, 3)
            | none => (.error (.coordenadasIndisponiveis cep), cache, 3)

/-- The optional `address` sub-object of a Nominatim candidate
(app.py lines 203-219).  A field is `some v` when the key is present
with value `v`. -/
structure EnderecoDetalhe where
  city : Option String
  town : Option String
  municipality : Option String
  village : Option String
  county : Option String
  state : Option String
  postcode : Option String
deriving DecidableEq, Repr

/-- One Nominatim candidate for the address path (app.py lines 202-224). -/
structure ResultadoNominatim where
  lat : ℚ
  lon : ℚ
  display_name : Option String
  address : Option EnderecoDetalhe
deriving DecidableEq, Repr

/-- Oracle for the address path: `some` when the Nominatim call returned
status 200 with a non-empty list (app.py line 199), `none` otherwise. -/
abbrev EnvEndereco := Option ResultadoNominatim

/-- Python chain `a or b or ... or ''` over str-or-None values: the first
present, non-empty string, else the empty string (app.py lines 206-213). -/
def primeiro_truthy : List (Option String) → String
  | [] => ""
  | some s :: resto => if s = "" then primeiro_truthy resto else s
  | none :: resto => primeiro_truthy resto

/-- `obter_coordenadas_por_endereco` (app.py lines 165-239).  The
", Brazil" suffix appended to the query (lines 182-184) only changes the
outbound request text, which the oracle already abstracts. -/
def obter_coordenadas_por_endereco (env : EnvEndereco) (cache : Cache)
    (endereco_completo : String) : Except ResolveErr Coord × Cache × Nat :=
  match cache.lookup ("endereco_" ++ strip_espacos endereco_completo.toLower) with
  | some r => (.ok r, cache, 0)
  | none =>
    match env with
    | none => (.error (.enderecoNaoEncontrado endereco_completo), cache, 1)
    | some resultado_busca =>
      let address := resultado_busca.address.getD
        ⟨none, none, none, none, none, none, none⟩
      let cidade := primeiro_truthy
        [address.city, address.town, address.municipality,
         address.village, address.county]
      let resultado : Coord :=
        { lat := resultado_busca.lat, lon := resultado_busca.lon,
          endereco := resultado_busca.display_name.getD endereco_completo,
          cidade := cidade, uf := address.state.getD "",
          cep := some (address.postcode.getD "N/A") }
      (.ok resultado, cache_insere cache ("endereco_" ++ strip_espacos endereco_completo.toLower) resultado, 1)

/-- Abstraction of the floating-point math functions used by the haversine
computation (app.py line 6: radians, sin, cos, sqrt, atan2).  The embedding
is exact over ℚ up to this record; every theorem below holds for every
choice of these functions. -/
structure Trig where
  sin : ℚ → ℚ
  cos : ℚ → ℚ
  sqrt : ℚ → ℚ
  atan2 : ℚ → ℚ → ℚ
  radians : ℚ → ℚ

/-- The dict returned by both distance functions
(app.py lines 263-267 and 303-307). -/
structure ResultadoDistancia where
  distancia_metros : ℚ
  duracao_segundos : ℚ
  metodo : String
deriving DecidableEq, Repr

/-- The straight-line haversine distance `R * c` of app.py lines 282-293:
Earth radius 6371000 m, spherical law of haversines over the abstracted
trigonometric functions. -/
def distancia_linha_reta (t : Trig) (coord_origem coord_destino : Coord) : ℚ :=
  let R : ℚ := 6371000
  let lat1 := t.radians coord_origem.lat
  let lon1 := t.radians coord_origem.lon
  let lat2 := t.radians coord_destino.lat
  let lon2 := t.radians coord_destino.lon
  let dlat := lat2 - lat1
  let dlon := lon2 - lon1
  let a := t.sin (dlat / 2) ^ 2 + t.cos lat1 * t.cos lat2 * t.sin (dlon / 2) ^ 2
  let c := 2 * t.atan2 (t.sqrt a) (t.sqrt (1 - a))
  R * c

/-- `calcular_distancia_haversine` (app.py lines 277-307): straight-line
distance scaled by 1.3, duration at an average 80 km/h. -/
def calcular_distancia_haversine (t : Trig) (coord_origem coord_destino : Coord) :
    ResultadoDistancia :=
  let distancia_estimada := distancia_linha_reta t coord_origem coord_destino * 1.3
  let tempo_segundos := distancia_estimada / 1000 * 3600 / 80
  { distancia_metros := distancia_estimada,
    duracao_segundos := tempo_segundos,
    metodo := "haversine_ajustado" }

/-- One OSRM route (app.py lines 261-265). -/
structure RotaOsrm where
  distance : ℚ
  duration : ℚ
deriving DecidableEq, Repr

/-- OSRM JSON body: its `code` field and route list (app.py line 260). -/
structure DadosOsrm where
  code : String
  routes : List RotaOsrm
deriving DecidableEq, Repr

/-- Oracle for the OSRM request (app.py lines 256-275): a raised network
exception, or an HTTP response with its status and body. -/
inductive RespOsrm
  | excecao
  | http (status : Nat) (dados : DadosOsrm)
deriving DecidableEq, Repr

/-- The OSRM attempt succeeded: status 200, code "Ok", at least one
route (app.py lines 258-260). -/
def osrm_ok : RespOsrm → Bool
  | .excecao => false
  | .http status dados => status == 200 && dados.code == "Ok" && !dados.routes.isEmpty

/-- `calcular_distancia_osrm` (app.py lines 241-275): use the first route
of a successful OSRM response, otherwise fall back to
`calcular_distancia_haversine`.  Total by construction. -/
def calcular_distancia_osrm (env : RespOsrm) (t : Trig)
    (coord_origem coord_destino : Coord) : ResultadoDistancia :=
  match env with
  | .excecao => calcular_distancia_haversine t coord_origem coord_destino
  | .http status dados =>
    if status = 200 then
      if dados.code = "Ok" then
        match dados.routes with
        | route :: _ =>
          { distancia_metros := route.distance,
            duracao_segundos := route.duration,
            metodo := "osrm" }
        | [] => calcular_distancia_haversine t coord_origem coord_destino
      else calcular_distancia_haversine t coord_origem coord_destino
    else calcular_distancia_haversine t coord_origem coord_destino

/-- Success payload of a fee calculation: the fields of the `resultado`
dicts of app.py lines 341-376 and 422-454 that carry business data,
kept un-rounded (lines 326-336 / 407-417); `destino_info` is the
formatted destination CEP (line 433) or the informed address (line 352). -/
structure FeeOk where
  origem : Coord
  destino : Coord
  destino_info : String
  distancia_ida_km : ℚ
  ida_volta_km : ℚ
  duracao_minutos : ℚ
  metodo : String
  km_excedente : ℚ
  valor_taxa : ℚ
deriving DecidableEq, Repr

/-- Outcome of a fee calculation: the success dict or the error dict
`{status: "erro", codigo, mensagem}` (app.py lines 383-387, 461-465,
564-611). -/
inductive FeeResult
  | sucesso (r : FeeOk)
  | erro (codigo : String) (mensagem : String)
deriving DecidableEq, Repr

def eh_erro : FeeResult → Bool
  | .erro _ _ => true
  | .sucesso _ => false

/-- The excess-kilometre assignment of app.py lines 331-335 / 412-416 as a
function of the one-way distance. -/
def km_excedente_calc (distancia_ida_km : ℚ) : ℚ :=
  if FRANQUIA_KM_IDA < distancia_ida_km then
    distancia_ida_km * 2 - FRANQUIA_KM_TOTAL
  else 0

/-- The fee assignment of app.py lines 330-336 / 411-417 as a function of
the one-way distance. -/
def valor_taxa_calc (distancia_ida_km : ℚ) : ℚ :=
  if FRANQUIA_KM_IDA < distancia_ida_km then
    (distancia_ida_km * 2 - FRANQUIA_KM_TOTAL) * TAXA_POR_KM
  else 0

/-- All oracle inputs of one request, in call order: origin ViaCEP
resolution, destination ViaCEP resolution, destination Nominatim address
resolution, OSRM routing, abstracted trigonometry. -/
structure Env where
  viacep_origem : EnvViaCep
  viacep_destino : EnvViaCep
  nominatim_endereco : EnvEndereco
  osrm : RespOsrm
  trig : Trig

/-- `calcular_taxa_deslocamento` (app.py lines 389-465): resolve origin
CEP, resolve destination CEP, estimate the distance, apply the franchise
formula; any resolver exception becomes the ERRO_CALCULO dict with the
exception message (lines 459-465). -/
def calcular_taxa_deslocamento (env : Env) (cache : Cache) (cep_destino : String) :
    FeeResult × Cache × Nat :=
  match obter_coordenadas_viacep env.viacep_origem cache CEP_ORIGEM with
  | (.error e, cache1, n1) => (.erro "ERRO_CALCULO" e.mensagem, cache1, n1)
  | (.ok coord_origem, cache1, n1) =>
    match obter_coordenadas_viacep env.viacep_destino cache1 cep_destino with
    | (.error e, cache2, n2) => (.erro "ERRO_CALCULO" e.mensagem, cache2, n1 + n2)
    | (.ok coord_destino, cache2, n2) =>
      let resultado_distancia :=
        calcular_distancia_osrm env.osrm env.trig coord_origem coord_destino
      let distancia_ida_km := resultado_distancia.distancia_metros / 1000
      (.sucesso
        { origem := coord_origem, destino := coord_destino,
          destino_info := formatar_cep cep_destino,
          distancia_ida_km := distancia_ida_km,
          ida_volta_km := distancia_ida_km * 2,
          duracao_minutos := resultado_distancia.duracao_segundos / 60,
          metodo := resultado_distancia.metodo,
          km_excedente := km_excedente_calc distancia_ida_km,
          valor_taxa := valor_taxa_calc distancia_ida_km },
        cache2, n1 + n2 + 1)

/-- `calcular_taxa_por_endereco` (app.py lines 309-387): same pipeline
with the destination resolved from a free-form address. -/
def calcular_taxa_por_endereco (env : Env) (cache : Cache) (endereco_destino : String) :
    FeeResult × Cache × Nat :=
  match obter_coordenadas_viacep env.viacep_origem cache CEP_ORIGEM with
  | (.error e, cache1, n1) => (.erro "ERRO_CALCULO" e.mensagem, cache1, n1)
  | (.ok coord_origem, cache1, n1) =>
    match obter_coordenadas_por_endereco env.nominatim_endereco cache1 endereco_destino with
    | (.error e, cache2, n2) => (.erro "ERRO_CALCULO" e.mensagem, cache2, n1 + n2)
    | (.ok coord_destino, cache2, n2) =>
      let resultado_distancia :=
        calcular_distancia_osrm env.osrm env.trig coord_origem coord_destino
      let distancia_ida_km := resultado_distancia.distancia_metros / 1000
      (.sucesso
        { origem := coord_origem, destino := coord_destino,
          destino_info := endereco_destino,
          distancia_ida_km := distancia_ida_km,
          ida_volta_km := distancia_ida_km * 2,
          duracao_minutos := resultado_distancia.duracao_segundos / 60,
          metodo := resultado_distancia.metodo,
          km_excedente := km_excedente_calc distancia_ida_km,
          valor_taxa := valor_taxa_calc distancia_ida_km },
        cache2, n1 + n2 + 1)

/-- Parsed JSON body of POST /calcular: presence of the `endereco` and
`cep` keys, plus whether any other key is present (so that the Python
emptiness test `not data` can be expressed). -/
structure ReqBody where
  endereco : Option String
  cep : Option String
  outros : Bool
deriving DecidableEq, Repr

/-- What an endpoint produces: the JSON result, the HTTP status, the cache
after the request, and how many network calls were made. -/
structure HttpSaida where
  resultado : FeeResult
  status : Nat
  cache : Cache
  chamadas : Nat
deriving DecidableEq, Repr

/-- POST /calcular (app.py lines 545-625).  `none` models a missing or
null JSON body; an all-empty `ReqBody` models the empty dict, which is
falsy in Python like `None` (line 563). -/
def calcular (env : Env) (cache : Cache) (corpo : Option ReqBody) : HttpSaida :=
  match corpo with
  | none =>
    { resultado := .erro "DADOS_OBRIGATORIOS"
        "Informe o endereço ou CEP no corpo da requisição",
      status := 400, cache := cache, chamadas := 0 }
  | some dados =>
    if dados.endereco.isNone && dados.cep.isNone && !dados.outros then
      { resultado := .erro "DADOS_OBRIGATORIOS"
          "Informe o endereço ou CEP no corpo da requisição",
        status := 400, cache := cache, chamadas := 0 }
    else
      match dados.endereco with
      | some e =>
        let endereco := strip_espacos e
        if endereco = "" then
          { resultado := .erro "ENDERECO_VAZIO" "O endereço não pode estar vazio",
            status := 400, cache := cache, chamadas := 0 }
        else
          match calcular_taxa_por_endereco env cache endereco with
          | (resultado, cache2, n) =>
            { resultado := resultado,
              status := if eh_erro resultado then 400 else 200,
              cache := cache2, chamadas := n }
      | none =>
        match dados.cep with
        | some cep =>
          if (limpar_cep cep).length ≠ 8 then
            { resultado := .erro "CEP_INVALIDO"
                ("CEP inválido: " ++ cep ++ ". Use formato XXXXX-XXX ou XXXXXXXX"),
              status := 400, cache := cache, chamadas := 0 }
          else
            match calcular_taxa_deslocamento env cache cep with
            | (resultado, cache2, n) =>
              { resultado := resultado,
                status := if eh_erro resultado then 400 else 200,
                cache := cache2, chamadas := n }
        | none =>
          { resultado := .erro "PARAMETRO_INVALIDO"
              "Informe endereco ou cep no corpo da requisição",
            status := 400, cache := cache, chamadas := 0 }

/-- GET /teste/{cep} (app.py lines 627-638). -/
def teste (env : Env) (cache : Cache) (cep : String) : HttpSaida :=
  match calcular_taxa_deslocamento env cache cep with
  | (resultado, cache2, n) =>
    { resultado := resultado,
      status := if eh_erro resultado then 400 else 200,
      cache := cache2, chamadas := n }

/-- GET /teste-endereco/{endereco} (app.py lines 640-653). -/
def teste_endereco (env : Env) (cache : Cache) (endereco : String) : HttpSaida :=
  match calcular_taxa_por_endereco env cache endereco with
  | (resultado, cache2, n) =>
    { resultado := resultado,
      status := if eh_erro resultado then 400 else 200,
      cache := cache2, chamadas := n }

/-- Trigonometric oracle used by concrete test inputs. -/
def trigW : Trig :=
  { sin := fun _ => 0, cos := fun _ => 0, sqrt := fun _ => 0,
    atan2 := fun _ _ => 0, radians := fun _ => 0 }

def coordOW : Coord :=
  { lat := 1, lon := 2, endereco := "o", cidade := "Bauru", uf := "SP", cep := none }

def coordDW : Coord :=
  { lat := 3, lon := 4, endereco := "d", cidade := "Marilia", uf := "SP", cep := none }

/-- Cache already holding origin and destination CEPs, for concrete runs. -/
def cacheW1 : Cache := [("17017337", coordOW), ("17500005", coordDW)]

/-- Environment whose OSRM call succeeds with a 50 km route and whose other
services are down (they are never reached: both CEPs are cached). -/
def envW1 : Env :=
  { viacep_origem := { viacep := .statusErro, nominatim1 := none, nominatim2 := none },
    viacep_destino := { viacep := .statusErro, nominatim1 := none, nominatim2 := none },
    nominatim_endereco := none,
    osrm := .http 200 { code := "Ok", routes := [{ distance := 50000, duration := 2700 }] },
    trig := trigW }

/-- The success payload `calcular_taxa_deslocamento envW1 cacheW1 "17500-005"`
produces. -/
def rW1 : FeeOk :=
  { origem := coordOW, destino := coordDW, destino_info := "17500-005",
    distancia_ida_km := 50000 / 1000, ida_volta_km := 50000 / 1000 * 2,
    duracao_minutos := 2700 / 60, metodo := "osrm",
    km_excedente := km_excedente_calc (50000 / 1000),
    valor_taxa := valor_taxa_calc (50000 / 1000) }

/-- On success, `calcular_taxa_deslocamento` fills the excess-km, fee and
round-trip fields from the one-way distance by the formulas of
app.py lines 330-336 and 364. -/
theorem sucesso_campos_cep (env : Env) (cache : Cache) (cep : String)
    (r : FeeOk) (c : Cache) (n : Nat)
    (h : calcular_taxa_deslocamento env cache cep = (.sucesso r, c, n)) :
    r.km_excedente = km_excedente_calc r.distancia_ida_km ∧
    r.valor_taxa = valor_taxa_calc r.distancia_ida_km ∧
    r.ida_volta_km = r.distancia_ida_km * 2 := by
  unfold calcular_taxa_deslocamento at h
  split at h
  · simp at h
  · split at h
    · simp at h
    · simp only [Prod.mk.injEq, FeeResult.sucesso.injEq] at h
      obtain ⟨hr, -, -⟩ := h
      subst hr
      exact ⟨rfl, rfl, rfl⟩

/-- Same field relations for the address-path pipeline
(app.py lines 330-336 and 364). -/
theorem sucesso_campos_endereco (env : Env) (cache : Cache) (endereco : String)
    (r : FeeOk) (c : Cache) (n : Nat)
    (h : calcular_taxa_por_endereco env cache endereco = (.sucesso r, c, n)) :
    r.km_excedente = km_excedente_calc r.distancia_ida_km ∧
    r.valor_taxa = valor_taxa_calc r.distancia_ida_km ∧
    r.ida_volta_km = r.distancia_ida_km * 2 := by
  unfold calcular_taxa_por_endereco at h
  split at h
  · simp at h
  · split at h
    · simp at h
    · simp only [Prod.mk.injEq, FeeResult.sucesso.injEq] at h
      obtain ⟨hr, -, -⟩ := h
      subst hr
      exact ⟨rfl, rfl, rfl⟩

/-- Claim C1: for every successful fee calculation (by postal code or by
address) with one-way distance d km: if d > 30 then excess_km = 2d - 60
and fee = excess_km × 1.60, otherwise excess_km = 0 and fee = 0; a
destination at 50 km one-way yields round_trip = 100 km, excess = 40 km,
fee = 64.00. -/
theorem claim_C1_formula_taxa (env : Env) (cache : Cache) (idf : String)
    (r : FeeOk) (c : Cache) (n : Nat)
    (h : calcular_taxa_deslocamento env cache idf = (.sucesso r, c, n) ∨
         calcular_taxa_por_endereco env cache idf = (.sucesso r, c, n)) :
    (30 < r.distancia_ida_km →
      r.km_excedente = r.distancia_ida_km * 2 - 60 ∧
      r.valor_taxa = r.km_excedente * 1.6) ∧
    (r.distancia_ida_km ≤ 30 → r.km_excedente = 0 ∧ r.valor_taxa = 0) ∧
    (r.distancia_ida_km = 50 →
      r.ida_volta_km = 100 ∧ r.km_excedente = 40 ∧ r.valor_taxa = 64) := by
  have hc : r.km_excedente = km_excedente_calc r.distancia_ida_km ∧
      r.valor_taxa = valor_taxa_calc r.distancia_ida_km ∧
      r.ida_volta_km = r.distancia_ida_km * 2 := by
    cases h with
    | inl h => exact sucesso_campos_cep _ _ _ _ _ _ h
    | inr h => exact sucesso_campos_endereco _ _ _ _ _ _ h
  obtain ⟨he, hv, hi⟩ := hc
  refine ⟨fun h30 => ?_, fun h30 => ?_, fun h50 => ?_⟩
  · rw [he, hv]
    simp only [km_excedente_calc, valor_taxa_calc, FRANQUIA_KM_TOTAL, FRANQUIA_KM_IDA,
      TAXA_POR_KM]
    rw [if_pos h30, if_pos h30]
    exact ⟨by ring, by ring⟩
  · rw [he, hv]
    simp only [km_excedente_calc, valor_taxa_calc, FRANQUIA_KM_TOTAL, FRANQUIA_KM_IDA,
      TAXA_POR_KM]
    rw [if_neg (not_lt.mpr h30), if_neg (not_lt.mpr h30)]
    exact ⟨rfl, rfl⟩
  · rw [he, hv, hi, h50]
    simp only [km_excedente_calc, valor_taxa_calc, FRANQUIA_KM_TOTAL, FRANQUIA_KM_IDA,
      TAXA_POR_KM]
    rw [if_pos (by norm_num : (30 : ℚ) < 50), if_pos (by norm_num : (30 : ℚ) < 50)]
    norm_num

/-- Claim C1 witness: a concrete run whose OSRM route is 50 km one-way. -/
theorem claim_C1_witness :
    calcular_taxa_deslocamento envW1 cacheW1 "17500-005" = (.sucesso rW1, cacheW1, 1) ∧
    rW1.ida_volta_km = 100 ∧ rW1.km_excedente = 40 ∧ rW1.valor_taxa = 64 := by
  have heq : calcular_taxa_deslocamento envW1 cacheW1 "17500-005" =
      (.sucesso rW1, cacheW1, 1) := rfl
  exact ⟨heq,
    (claim_C1_formula_taxa envW1 cacheW1 "17500-005" rW1 cacheW1 1
      (Or.inl heq)).2.2 (by norm_num [rW1])⟩

/-- If the OSRM attempt failed in any way (exception, non-200, wrong code,
empty route list), the estimator returns the haversine fallback
(app.py lines 268-275). -/
theorem osrm_fallback_eq (env : RespOsrm) (t : Trig) (o d : Coord)
    (h : osrm_ok env = false) :
    calcular_distancia_osrm env t o d = calcular_distancia_haversine t o d := by
  cases env with
  | excecao => rfl
  | http status dados =>
    simp only [osrm_ok] at h
    simp only [calcular_distancia_osrm]
    by_cases hs : status = 200
    · subst hs
      rw [if_pos rfl]
      by_cases hc : dados.code = "Ok"
      · rw [if_pos hc]
        cases hrt : dados.routes with
        | nil => rfl
        | cons a l =>
          rw [hrt] at h
          simp [hc] at h
      · rw [if_neg hc]
    · rw [if_neg hs]

/-- If the OSRM attempt succeeded, the estimator reports the `osrm` method
tag (app.py lines 258-267). -/
theorem osrm_metodo_sucesso (env : RespOsrm) (t : Trig) (o d : Coord)
    (h : osrm_ok env = true) :
    (calcular_distancia_osrm env t o d).metodo = "osrm" := by
  cases env with
  | excecao => simp [osrm_ok] at h
  | http status dados =>
    simp only [osrm_ok, Bool.and_eq_true, beq_iff_eq, Bool.not_eq_true'] at h
    obtain ⟨⟨hs, hc⟩, hr⟩ := h
    subst hs
    simp only [calcular_distancia_osrm, if_true]
    rw [if_pos hc]
    cases hrt : dados.routes with
    | nil => rw [hrt] at hr; simp at hr
    | cons a l => rfl

/-- Claim C2: whenever the routing query fails (non-200 status, code not
Ok, empty route list, or exception), the estimator returns the fallback
whose distance is the haversine great-circle distance (Earth radius
6371000 m) times 1.3, whose duration is that distance traversed at
80 km/h, tagged with the fallback method tag. -/
theorem claim_C2_fallback (env : RespOsrm) (t : Trig) (o d : Coord)
    (h : osrm_ok env = false) :
    calcular_distancia_osrm env t o d = calcular_distancia_haversine t o d ∧
    (calcular_distancia_osrm env t o d).distancia_metros =
      distancia_linha_reta t o d * 1.3 ∧
    (calcular_distancia_osrm env t o d).duracao_segundos =
      (calcular_distancia_osrm env t o d).distancia_metros / 1000 / 80 * 3600 ∧
    (calcular_distancia_osrm env t o d).metodo = "haversine_ajustado" := by
  have hfall := osrm_fallback_eq env t o d h
  refine ⟨hfall, by rw [hfall]; rfl, ?_, by rw [hfall]; rfl⟩
  rw [hfall]
  show (calcular_distancia_haversine t o d).duracao_segundos = _
  simp only [calcular_distancia_haversine]
  ring

/-- Claim C2 witness: concrete unreachable-OSRM run. -/
theorem claim_C2_witness :
    osrm_ok RespOsrm.excecao = false ∧
    calcular_distancia_osrm RespOsrm.excecao trigW coordOW coordDW =
      calcular_distancia_haversine trigW coordOW coordDW ∧
    (calcular_distancia_osrm RespOsrm.excecao trigW coordOW coordDW).metodo =
      "haversine_ajustado" :=
  ⟨rfl, (claim_C2_fallback RespOsrm.excecao trigW coordOW coordDW rfl).1,
    (claim_C2_fallback RespOsrm.excecao trigW coordOW coordDW rfl).2.2.2⟩

/-- Claim C3: the distance estimator is total (this embedding returns a
`ResultadoDistancia` for every environment and coordinate pair), its
method tag is always one of the two tags, the tag is `osrm` exactly when
the routing attempt succeeded, and on failure the result is the
great-circle fallback. -/
theorem claim_C3_estimador_total (env : RespOsrm) (t : Trig) (o d : Coord) :
    ((calcular_distancia_osrm env t o d).metodo = "osrm" ∨
      (calcular_distancia_osrm env t o d).metodo = "haversine_ajustado") ∧
    ((calcular_distancia_osrm env t o d).metodo = "osrm" ↔ osrm_ok env = true) ∧
    (osrm_ok env = false →
      calcular_distancia_osrm env t o d = calcular_distancia_haversine t o d) := by
  refine ⟨?_, ⟨?_, fun hok => osrm_metodo_sucesso env t o d hok⟩,
    osrm_fallback_eq env t o d⟩
  · cases hb : osrm_ok env with
    | true => exact Or.inl (osrm_metodo_sucesso env t o d hb)
    | false =>
      right
      rw [osrm_fallback_eq env t o d hb]
      rfl
  · intro hm
    cases hb : osrm_ok env with
    | true => rfl
    | false =>
      rw [osrm_fallback_eq env t o d hb] at hm
      exact absurd hm (by simp [calcular_distancia_haversine])

def dadosW : DadosOsrm := { code := "Ok", routes := [{ distance := 50000, duration := 2700 }] }

/-- Claim C3 witness: concrete success and failure runs. -/
theorem claim_C3_witness :
    (calcular_distancia_osrm (RespOsrm.http 200 dadosW) trigW coordDW coordOW).metodo =
      "osrm" ∧
    calcular_distancia_osrm RespOsrm.excecao trigW coordDW coordOW =
      calcular_distancia_haversine trigW coordDW coordOW :=
  ⟨(claim_C3_estimador_total (RespOsrm.http 200 dadosW) trigW coordDW coordOW).2.1.2 rfl,
   (claim_C3_estimador_total RespOsrm.excecao trigW coordDW coordOW).2.2 rfl⟩

/-- Claim C6: for a fixed origin the computed fee is a non-decreasing
function of the destination one-way distance, and is 0 for every one-way
distance at most 30 km; both fee pipelines compute their fee by this
function of the one-way distance. -/
theorem claim_C6_monotonicidade :
    (∀ d1 d2 : ℚ, d1 ≤ d2 → valor_taxa_calc d1 ≤ valor_taxa_calc d2) ∧
    (∀ dq : ℚ, dq ≤ 30 → valor_taxa_calc dq = 0) ∧
    (∀ (env : Env) (cache : Cache) (idf : String) (r : FeeOk) (c : Cache) (n : Nat),
      (calcular_taxa_deslocamento env cache idf = (.sucesso r, c, n) ∨
       calcular_taxa_por_endereco env cache idf = (.sucesso r, c, n)) →
      r.valor_taxa = valor_taxa_calc r.distancia_ida_km) := by
  refine ⟨?_, ?_, ?_⟩
  · intro d1 d2 hle
    simp only [valor_taxa_calc, FRANQUIA_KM_TOTAL, FRANQUIA_KM_IDA, TAXA_POR_KM]
    by_cases h1 : (30 : ℚ) < d1
    · rw [if_pos h1, if_pos (lt_of_lt_of_le h1 hle)]
      nlinarith
    · rw [if_neg h1]
      by_cases h2 : (30 : ℚ) < d2
      · rw [if_pos h2]
        nlinarith
      · rw [if_neg h2]
  · intro dq hdq
    simp only [valor_taxa_calc, FRANQUIA_KM_IDA]
    rw [if_neg (not_lt.mpr hdq)]
  · intro env cache idf r c n h
    cases h with
    | inl h => exact (sucesso_campos_cep _ _ _ _ _ _ h).2.1
    | inr h => exact (sucesso_campos_endereco _ _ _ _ _ _ h).2.1

/-- Claim C6 witness. -/
theorem claim_C6_witness :
    valor_taxa_calc 10 ≤ valor_taxa_calc 40 ∧ valor_taxa_calc 20 = 0 :=
  ⟨claim_C6_monotonicidade.1 10 40 (by norm_num),
   claim_C6_monotonicidade.2.1 20 (by norm_num)⟩

/-- Claim C7: the fee of every successful fee calculation is ≥ 0 (by
either pipeline, for every environment, hence for every non-negative
input distance). -/
theorem claim_C7_taxa_nao_negativa (env : Env) (cache : Cache) (idf : String)
    (r : FeeOk) (c : Cache) (n : Nat)
    (h : calcular_taxa_deslocamento env cache idf = (.sucesso r, c, n) ∨
         calcular_taxa_por_endereco env cache idf = (.sucesso r, c, n)) :
    0 ≤ r.valor_taxa := by
  have hv : r.valor_taxa = valor_taxa_calc r.distancia_ida_km := by
    cases h with
    | inl h => exact (sucesso_campos_cep _ _ _ _ _ _ h).2.1
    | inr h => exact (sucesso_campos_endereco _ _ _ _ _ _ h).2.1
  rw [hv]
  simp only [valor_taxa_calc, FRANQUIA_KM_TOTAL, FRANQUIA_KM_IDA, TAXA_POR_KM]
  by_cases h1 : (30 : ℚ) < r.distancia_ida_km
  · rw [if_pos h1]
    nlinarith
  · rw [if_neg h1]

/-- Claim C7 witness. -/
theorem claim_C7_witness :
    calcular_taxa_deslocamento envW1 cacheW1 "17500-005" = (.sucesso rW1, cacheW1, 1) ∧
    0 ≤ rW1.valor_taxa :=
  ⟨rfl, claim_C7_taxa_nao_negativa envW1 cacheW1 "17500-005" rW1 cacheW1 1 (Or.inl rfl)⟩


/-- A cache hit short-circuits `obter_coordenadas_viacep`
(app.py lines 46-48). -/
theorem viacep_cache_hit (env : EnvViaCep) (cache : Cache) (cep : String) (r : Coord)
    (h : cache.lookup (limpar_cep cep) = some r) :
    obter_coordenadas_viacep env cache cep = (.ok r, cache, 0) := by
  simp [obter_coordenadas_viacep, h]

/-- Exhaustive branch analysis of `obter_coordenadas_viacep`: the call
either serves a cache hit, fails with the cache unchanged, or succeeds
inserting exactly its result under the cleaned CEP. -/
theorem viacep_casos (env : EnvViaCep) (cache : Cache) (cep : String) :
    (∃ r, cache.lookup (limpar_cep cep) = some r ∧
      obter_coordenadas_viacep env cache cep = (.ok r, cache, 0)) ∨
    (∃ e n, obter_coordenadas_viacep env cache cep = (.error e, cache, n)) ∨
    (∃ r n, obter_coordenadas_viacep env cache cep =
      (.ok r, cache_insere cache (limpar_cep cep) r, n)) := by
  cases hl : List.lookup (limpar_cep cep) cache with
  | some r0 =>
    refine Or.inl ⟨r0, rfl, ?_⟩
    simp only [obter_coordenadas_viacep, hl]
  | none =>
    cases hv : env.viacep with
    | statusErro =>
      refine Or.inr (Or.inl ?_)
      simp only [obter_coordenadas_viacep, hl, hv]
      exact ⟨_, _, rfl⟩
    | comErro =>
      refine Or.inr (Or.inl ?_)
      simp only [obter_coordenadas_viacep, hl, hv]
      exact ⟨_, _, rfl⟩
    | ok dados =>
      cases h1 : env.nominatim1 with
      | some p =>
        obtain ⟨lat, lon⟩ := p
        refine Or.inr (Or.inr ?_)
        simp only [obter_coordenadas_viacep, hl, hv, h1]
        exact ⟨_, _, rfl⟩
      | none =>
        cases h2 : env.nominatim2 with
        | some p =>
          obtain ⟨lat, lon⟩ := p
          refine Or.inr (Or.inr ?_)
          simp only [obter_coordenadas_viacep, hl, hv, h1, h2]
          exact ⟨_, _, rfl⟩
        | none =>
          cases h5 : List.lookup ((limpar_cep cep).take 5) coordenadas_cidades with
          | some p =>
            refine Or.inr (Or.inr ?_)
            simp only [obter_coordenadas_viacep, hl, hv, h1, h2, h5]
            exact ⟨_, _, rfl⟩
          | none =>
            cases h52 : List.lookup ((limpar_cep cep).take 2) coordenadas_cidades with
            | some p =>
              refine Or.inr (Or.inr ?_)
              simp only [obter_coordenadas_viacep, hl, hv, h1, h2, h5, h52]
              exact ⟨_, _, rfl⟩
            | none =>
              refine Or.inr (Or.inl ?_)
              simp only [obter_coordenadas_viacep, hl, hv, h1, h2, h5, h52]
              exact ⟨_, _, rfl⟩

/-- A cache hit short-circuits `obter_coordenadas_por_endereco`
(app.py lines 171-174). -/
theorem endereco_cache_hit (env : EnvEndereco) (cache : Cache) (e : String) (r : Coord)
    (h : cache.lookup ("endereco_" ++ strip_espacos e.toLower) = some r) :
    obter_coordenadas_por_endereco env cache e = (.ok r, cache, 0) := by
  simp [obter_coordenadas_por_endereco, h]

/-- Exhaustive branch analysis of `obter_coordenadas_por_endereco`. -/
theorem endereco_casos (env : EnvEndereco) (cache : Cache) (e : String) :
    (∃ r, cache.lookup ("endereco_" ++ strip_espacos e.toLower) = some r ∧
      obter_coordenadas_por_endereco env cache e = (.ok r, cache, 0)) ∨
    (∃ er n, obter_coordenadas_por_endereco env cache e = (.error er, cache, n)) ∨
    (∃ r n, obter_coordenadas_por_endereco env cache e =
      (.ok r, cache_insere cache ("endereco_" ++ strip_espacos e.toLower) r, n)) := by
  cases hl : List.lookup ("endereco_" ++ strip_espacos e.toLower) cache with
  | some r0 =>
    refine Or.inl ⟨r0, rfl, ?_⟩
    simp only [obter_coordenadas_por_endereco, hl]
  | none =>
    cases ha : env with
    | none =>
      subst ha
      refine Or.inr (Or.inl ?_)
      simp only [obter_coordenadas_por_endereco, hl]
      exact ⟨_, _, rfl⟩
    | some resultado_busca =>
      subst ha
      refine Or.inr (Or.inr ?_)
      simp only [obter_coordenadas_por_endereco, hl]
      exact ⟨_, _, rfl⟩

/-- Every successful `obter_coordenadas_viacep` run leaves the cache
mapping the cleaned CEP to the returned coordinate
(app.py lines 98, 116, 157). -/
theorem viacep_sucesso_no_cache (env : EnvViaCep) (cache : Cache) (cep : String)
    (r : Coord) (c1 : Cache) (n1 : Nat)
    (h : obter_coordenadas_viacep env cache cep = (.ok r, c1, n1)) :
    c1.lookup (limpar_cep cep) = some r := by
  rcases viacep_casos env cache cep with ⟨r0, hl, heq⟩ | ⟨e, n0, heq⟩ | ⟨r0, n0, heq⟩
  · rw [heq] at h
    simp only [Prod.mk.injEq, Except.ok.injEq] at h
    obtain ⟨hr, hc, -⟩ := h
    subst hr
    subst hc
    exact hl
  · rw [heq] at h
    simp at h
  · rw [heq] at h
    simp only [Prod.mk.injEq, Except.ok.injEq] at h
    obtain ⟨hr, hc, -⟩ := h
    subst hr
    subst hc
    simp [cache_insere, List.lookup]

/-- Every successful `obter_coordenadas_por_endereco` run leaves the cache
mapping the normalized address key to the returned coordinate
(app.py line 231). -/
theorem endereco_sucesso_no_cache (env : EnvEndereco) (cache : Cache) (e : String)
    (r : Coord) (c1 : Cache) (n1 : Nat)
    (h : obter_coordenadas_por_endereco env cache e = (.ok r, c1, n1)) :
    c1.lookup ("endereco_" ++ strip_espacos e.toLower) = some r := by
  rcases endereco_casos env cache e with ⟨r0, hl, heq⟩ | ⟨er, n0, heq⟩ | ⟨r0, n0, heq⟩
  · rw [heq] at h
    simp only [Prod.mk.injEq, Except.ok.injEq] at h
    obtain ⟨hr, hc, -⟩ := h
    subst hr
    subst hc
    exact hl
  · rw [heq] at h
    simp at h
  · rw [heq] at h
    simp only [Prod.mk.injEq, Except.ok.injEq] at h
    obtain ⟨hr, hc, -⟩ := h
    subst hr
    subst hc
    simp [cache_insere, List.lookup]

/-- Claim C5: every successful resolution (either path) writes its
coordinate to the cache under the normalized key before returning, and
every later call with the same normalized key returns the same value from
the cache with zero network calls and an unchanged cache. -/
theorem claim_C5_cache_idempotencia :
    (∀ (env1 env2 : EnvViaCep) (cache : Cache) (cep1 cep2 : String)
        (r : Coord) (c1 : Cache) (n1 : Nat),
      limpar_cep cep1 = limpar_cep cep2 →
      obter_coordenadas_viacep env1 cache cep1 = (.ok r, c1, n1) →
      c1.lookup (limpar_cep cep1) = some r ∧
      obter_coordenadas_viacep env2 c1 cep2 = (.ok r, c1, 0)) ∧
    (∀ (env1 env2 : EnvEndereco) (cache : Cache) (e1 e2 : String)
        (r : Coord) (c1 : Cache) (n1 : Nat),
      strip_espacos e1.toLower = strip_espacos e2.toLower →
      obter_coordenadas_por_endereco env1 cache e1 = (.ok r, c1, n1) →
      c1.lookup ("endereco_" ++ strip_espacos e1.toLower) = some r ∧
      obter_coordenadas_por_endereco env2 c1 e2 = (.ok r, c1, 0)) := by
  constructor
  · intro env1 env2 cache cep1 cep2 r c1 n1 hkey h
    have hlk := viacep_sucesso_no_cache env1 cache cep1 r c1 n1 h
    exact ⟨hlk, viacep_cache_hit env2 c1 cep2 r (by rw [← hkey]; exact hlk)⟩
  · intro env1 env2 cache e1 e2 r c1 n1 hkey h
    have hlk := endereco_sucesso_no_cache env1 cache e1 r c1 n1 h
    exact ⟨hlk, endereco_cache_hit env2 c1 e2 r (by rw [← hkey]; exact hlk)⟩

/-- ViaCEP environment resolving through the first Nominatim call. -/
def envW5a : EnvViaCep :=
  { viacep := .ok { logradouro := none, bairro := "B", localidade := "Bauru", uf := "SP" },
    nominatim1 := some (1, 2), nominatim2 := none }

/-- All-failing ViaCEP environment (every outbound call errors). -/
def envW5b : EnvViaCep := { viacep := .statusErro, nominatim1 := none, nominatim2 := none }

/-- The coordinate `obter_coordenadas_viacep envW5a [] "17017-337"` produces. -/
def coordW5 : Coord :=
  { lat := 1, lon := 2, endereco := strip_virgula_espaco ", B, Bauru-SP",
    cidade := "Bauru", uf := "SP", cep := none }

/-- Claim C5 witness: after one successful resolution, a second call with
the same normalized key (here spelled without the hyphen) succeeds from
the cache alone, with zero network calls, even though every service is
down in the second environment. -/
theorem claim_C5_witness :
    obter_coordenadas_viacep envW5a [] "17017-337" =
      (.ok coordW5, cache_insere [] "17017337" coordW5, 2) ∧
    obter_coordenadas_viacep envW5b (cache_insere [] "17017337" coordW5) "17017337" =
      (.ok coordW5, cache_insere [] "17017337" coordW5, 0) :=
  ⟨rfl,
    (claim_C5_cache_idempotencia.1 envW5a envW5b [] "17017-337" "17017337"
      coordW5 (cache_insere [] "17017337" coordW5) 2 rfl rfl).2⟩

/-- Claim C10: if resolution fails (either path raises), the coordinate
cache is left exactly as it was before the call. -/
theorem claim_C10_erro_preserva_cache (env : EnvViaCep) (envA : EnvEndereco)
    (cache : Cache) (s : String) :
    (∀ e c n, obter_coordenadas_viacep env cache s = (.error e, c, n) → c = cache) ∧
    (∀ e c n, obter_coordenadas_por_endereco envA cache s = (.error e, c, n) → c = cache) := by
  constructor
  · intro e c n h
    rcases viacep_casos env cache s with ⟨r0, hl, heq⟩ | ⟨e0, n0, heq⟩ | ⟨r0, n0, heq⟩
    · rw [heq] at h
      simp at h
    · rw [heq] at h
      simp only [Prod.mk.injEq] at h
      exact h.2.1.symm
    · rw [heq] at h
      simp at h
  · intro e c n h
    rcases endereco_casos envA cache s with ⟨r0, hl, heq⟩ | ⟨e0, n0, heq⟩ | ⟨r0, n0, heq⟩
    · rw [heq] at h
      simp at h
    · rw [heq] at h
      simp only [Prod.mk.injEq] at h
      exact h.2.1.symm
    · rw [heq] at h
      simp at h

/-- Non-empty cache used to instantiate the cache-preservation claim. -/
def cacheW10 : Cache := [("x", coordDW)]

/-- Claim C10 witness: a failing resolution over a non-empty cache returns
that cache unchanged. -/
theorem claim_C10_witness :
    (obter_coordenadas_viacep envW5b cacheW10 "123").2.1 = cacheW10 :=
  (claim_C10_erro_preserva_cache envW5b none cacheW10 "123").1
    (.cepNaoEncontrado "123")
    (obter_coordenadas_viacep envW5b cacheW10 "123").2.1 1 rfl

/-- Claim C4: on a cache miss the postal-code resolver follows exactly the
chain: registry query, failing with an INVALID_POSTAL_CODE-class error
when the registry reports the CEP unknown (non-200 status or `erro`
flag); then the first geocoding call (street-level address when
available); on no result the city-only retry; on no result the static
table by 5-digit then 2-digit prefix; otherwise the terminal
COORDINATES_UNAVAILABLE-class failure. -/
theorem claim_C4_cadeia_resolucao (env : EnvViaCep) (cache : Cache) (cep : String)
    (hmiss : cache.lookup (limpar_cep cep) = none) :
    ((env.viacep = .statusErro ∨ env.viacep = .comErro) →
      ∃ e, (obter_coordenadas_viacep env cache cep).1 = .error e ∧
        eh_cep_invalido e = true) ∧
    (∀ dados lat lon, env.viacep = .ok dados → env.nominatim1 = some (lat, lon) →
      ∃ r, (obter_coordenadas_viacep env cache cep).1 = .ok r ∧
        r.lat = lat ∧ r.lon = lon) ∧
    (∀ dados lat lon, env.viacep = .ok dados → env.nominatim1 = none →
      env.nominatim2 = some (lat, lon) →
      ∃ r, (obter_coordenadas_viacep env cache cep).1 = .ok r ∧
        r.lat = lat ∧ r.lon = lon) ∧
    (∀ dados la lo, env.viacep = .ok dados → env.nominatim1 = none →
      env.nominatim2 = none →
      coordenadas_cidades.lookup ((limpar_cep cep).take 5) = some (la, lo) →
      ∃ r, (obter_coordenadas_viacep env cache cep).1 = .ok r ∧
        r.lat = la ∧ r.lon = lo) ∧
    (∀ dados la lo, env.viacep = .ok dados → env.nominatim1 = none →
      env.nominatim2 = none →
      coordenadas_cidades.lookup ((limpar_cep cep).take 5) = none →
      coordenadas_cidades.lookup ((limpar_cep cep).take 2) = some (la, lo) →
      ∃ r, (obter_coordenadas_viacep env cache cep).1 = .ok r ∧
        r.lat = la ∧ r.lon = lo) ∧
    (∀ dados, env.viacep = .ok dados → env.nominatim1 = none →
      env.nominatim2 = none →
      coordenadas_cidades.lookup ((limpar_cep cep).take 5) = none →
      coordenadas_cidades.lookup ((limpar_cep cep).take 2) = none →
      (obter_coordenadas_viacep env cache cep).1 =
        .error (.coordenadasIndisponiveis cep)) := by
  refine ⟨?_, ?_, ?_, ?_, ?_, ?_⟩
  · intro hv
    cases hv with
    | inl hv =>
      exact ⟨.cepNaoEncontrado cep,
        by simp only [obter_coordenadas_viacep, hmiss, hv], rfl⟩
    | inr hv =>
      exact ⟨.cepInvalido cep,
        by simp only [obter_coordenadas_viacep, hmiss, hv], rfl⟩
  · intro dados lat lon hv h1
    simp only [obter_coordenadas_viacep, hmiss, hv, h1]
    exact ⟨_, rfl, rfl, rfl⟩
  · intro dados lat lon hv h1 h2
    simp only [obter_coordenadas_viacep, hmiss, hv, h1, h2]
    exact ⟨_, rfl, rfl, rfl⟩
  · intro dados la lo hv h1 h2 h5
    simp only [obter_coordenadas_viacep, hmiss, hv, h1, h2, h5]
    exact ⟨_, rfl, rfl, rfl⟩
  · intro dados la lo hv h1 h2 h5 h52
    simp only [obter_coordenadas_viacep, hmiss, hv, h1, h2, h5, h52]
    exact ⟨_, rfl, rfl, rfl⟩
  · intro dados hv h1 h2 h5 h52
    simp only [obter_coordenadas_viacep, hmiss, hv, h1, h2, h5, h52]

/-- ViaCEP environment whose registry succeeds but both geocoding calls
fail, for a CEP outside the static table. -/
def envW4 : EnvViaCep :=
  { viacep := .ok { logradouro := none, bairro := "b", localidade := "Natal", uf := "RN" },
    nominatim1 := none, nominatim2 := none }

/-- Claim C4 witness: CEP 99999999 falls through the whole chain to the
COORDINATES_UNAVAILABLE-class failure. -/
theorem claim_C4_witness :
    (obter_coordenadas_viacep envW4 [] "99999999").1 =
      .error (.coordenadasIndisponiveis "99999999") :=
  (claim_C4_cadeia_resolucao envW4 [] "99999999" rfl).2.2.2.2.2
    { logradouro := none, bairro := "b", localidade := "Natal", uf := "RN" }
    rfl rfl rfl rfl rfl

/-- Claim C8: a POST /calcular body carrying a CEP whose digits-only
normalization does not have exactly 8 digits is rejected with the
CEP_INVALIDO error and HTTP 400, with no network calls and no cache
mutation (app.py lines 590-600). -/
theorem claim_C8_cep_malformado (env : Env) (cache : Cache) (cep : String)
    (outros : Bool) (h : (limpar_cep cep).length ≠ 8) :
    calcular env cache (some { endereco := none, cep := some cep, outros := outros }) =
      { resultado := .erro "CEP_INVALIDO"
          ("CEP inválido: " ++ cep ++ ". Use formato XXXXX-XXX ou XXXXXXXX"),
        status := 400, cache := cache, chamadas := 0 } := by
  simp [calcular, h]

/-- Claim C8 witness: the three-digit CEP "123". -/
theorem claim_C8_witness :
    (limpar_cep "123").length ≠ 8 ∧
    calcular envW1 cacheW10 (some { endereco := none, cep := some "123", outros := false }) =
      { resultado := .erro "CEP_INVALIDO"
          ("CEP inválido: 123. Use formato XXXXX-XXX ou XXXXXXXX"),
        status := 400, cache := cacheW10, chamadas := 0 } :=
  ⟨by decide, claim_C8_cep_malformado envW1 cacheW10 "123" false (by decide)⟩

/-- Cache holding only the origin CEP. -/
def cacheW9 : Cache := [("17017337", coordOW)]

/-- Environment whose every outbound service fails. -/
def envW9 : Env :=
  { viacep_origem := envW5b, viacep_destino := envW5b,
    nominatim_endereco := none, osrm := .excecao, trig := trigW }

/-- Claim C9 counterexample: for the malformed postal code "123" (with the
origin already cached), POST /calcular rejects with CEP_INVALIDO and
makes no network call, while GET /teste/123 skips the 8-digit validation,
attempts resolution (one network call) and reports ERRO_CALCULO; the two
endpoints classify the error differently. -/
theorem claim_C9_counterexample :
    (teste envW9 cacheW9 "123").resultado =
      .erro "ERRO_CALCULO" "CEP não encontrado: 123" ∧
    (calcular envW9 cacheW9
        (some { endereco := none, cep := some "123", outros := false })).resultado =
      .erro "CEP_INVALIDO" "CEP inválido: 123. Use formato XXXXX-XXX ou XXXXXXXX" ∧
    (teste envW9 cacheW9 "123").resultado ≠
      (calcular envW9 cacheW9
        (some { endereco := none, cep := some "123", outros := false })).resultado ∧
    (teste envW9 cacheW9 "123").chamadas = 1 ∧
    (calcular envW9 cacheW9
        (some { endereco := none, cep := some "123", outros := false })).chamadas = 0 := by
  refine ⟨rfl, rfl, ?_, rfl, rfl⟩
  decide

/-- Claim C9 amended: for identifiers that pass the POST validation — a
postal code normalizing to exactly 8 digits, or a non-empty
already-trimmed address — the GET test endpoints return exactly the POST
/calcular outcome (same payload, status, cache and network calls) from
the same cache state; for malformed postal codes the endpoints diverge as
the counterexample shows. -/
theorem claim_C9_equivalencia_amended (env : Env) (cache : Cache) (cep e : String) :
    ((limpar_cep cep).length = 8 →
      teste env cache cep =
        calcular env cache (some { endereco := none, cep := some cep, outros := false })) ∧
    (strip_espacos e = e → e ≠ "" →
      teste_endereco env cache e =
        calcular env cache (some { endereco := some e, cep := none, outros := false })) := by
  constructor
  · intro h8
    simp [calcular, teste, h8]
  · intro ht hne
    simp [calcular, teste_endereco, ht, hne]

/-- Claim C9 witness: a well-formed CEP and a trimmed non-empty address
give identical GET and POST outcomes. -/
theorem claim_C9_amended_witness :
    teste envW9 cacheW9 "17017-337" =
      calcular envW9 cacheW9
        (some { endereco := none, cep := some "17017-337", outros := false }) ∧
    teste_endereco envW9 cacheW9 "Bauru, SP" =
      calcular envW9 cacheW9
        (some { endereco := some "Bauru, SP", cep := none, outros := false }) :=
  ⟨(claim_C9_equivalencia_amended envW9 cacheW9 "17017-337" "x").1 (by decide),
   (claim_C9_equivalencia_amended envW9 cacheW9 "x" "Bauru, SP").2 (by decide) (by decide)⟩
